import Mathlib

/-!
Shallow embedding of `src/connect.rs` from the `rftp` repository, together
with theorems settling the specification claims about it.

The embedding covers the three stages of `create_session`:
  * the TCP-establishment phase (`create_session` here), including the Rust
    `unwrap_or` eager-argument semantics of the no-port fallback;
  * host-identity verification (`authenticate_host`), over a model of the
    known-hosts store;
  * user authentication (`authenticate_session`), as a bounded loop over an
    environment describing the per-iteration answers of the external library.

External library behaviour (libssh2 via the `ssh2` crate) is abstracted:
known-hosts lookup/persistence semantics are modelled from the spec where
the library owns them, and each model notes that in its doc comment.
-/

/-! ## Rust string trimming (`str::trim`)

Rust `str::trim` strips leading and trailing characters having the Unicode
`White_Space` property; `rustIsWhitespace` encodes that character class. -/

/-- The Unicode `White_Space` property, as used by Rust `char::is_whitespace`. -/
def rustIsWhitespace (c : Char) : Bool :=
  let n := c.val.toNat
  (0x09 ≤ n && n ≤ 0x0D) || n == 0x20 || n == 0x85 || n == 0xA0 || n == 0x1680
    || (0x2000 ≤ n && n ≤ 0x200A) || n == 0x2028 || n == 0x2029 || n == 0x202F
    || n == 0x205F || n == 0x3000

/-- Strip leading and trailing whitespace from a list of characters. -/
def trimChars (l : List Char) : List Char :=
  ((l.dropWhile rustIsWhitespace).reverse.dropWhile rustIsWhitespace).reverse

/-- Rust `str::trim`: the string without leading and trailing whitespace. -/
def rustTrim (s : String) : String :=
  String.mk (trimChars s.data)

/-! ## Base64 encoding (`base64::encode`), used for the fingerprint display -/

/-- The standard base64 alphabet. -/
def base64Alphabet : List Char :=
  "ABCDEFGHIJKLMNOPQRSTUVWXYZabcdefghijklmnopqrstuvwxyz0123456789+/".data

/-- The base64 character for a 6-bit value. -/
def base64Digit (n : Nat) : Char := base64Alphabet.getD n 'A'

/-- Standard base64 encoding of a byte list, with `=` padding. -/
def base64encode : List Nat → List Char
  | [] => []
  | [b1] =>
    let n := (b1 % 256) * 65536
    [base64Digit (n / 262144), base64Digit (n / 4096 % 64), '=', '=']
  | [b1, b2] =>
    let n := (b1 % 256) * 65536 + (b2 % 256) * 256
    [base64Digit (n / 262144), base64Digit (n / 4096 % 64), base64Digit (n / 64 % 64), '=']
  | b1 :: b2 :: b3 :: rest =>
    let n := (b1 % 256) * 65536 + (b2 % 256) * 256 + b3 % 256
    base64Digit (n / 262144) :: base64Digit (n / 4096 % 64) :: base64Digit (n / 64 % 64)
      :: base64Digit (n % 64) :: base64encode rest

/-! ## Known-hosts store model

`connect.rs` drives the store through the `ssh2` crate
(`read_file` / `check_port` / `add` / `write_file`); the store semantics
below are modelled from the spec (section 3: "a persisted, ordered
collection of (hostname-pattern, port, public-key, key-type) entries"). -/

/-- One known-hosts entry: (hostname, port, public-key bytes, key type). -/
structure KHEntry where
  host : String
  port : Nat
  key : List Nat
  keyType : Nat
  deriving DecidableEq, Repr

/-- The in-memory known-hosts store: an ordered collection of entries. -/
abbrev KnownHosts := List KHEntry

/-- The four outcomes of `ssh2::KnownHosts::check_port`. -/
inductive CheckResult where
  | Match
  | NotFound
  | Mismatch
  | Failure
  deriving DecidableEq, Repr

/-- Modelled from the spec: the store lookup behind
`known_hosts.check_port(destination, port, key)`. The first entry whose
(host, port) matches decides: equal key bytes give `Match`, different key
bytes give `Mismatch`; with no matching (host, port) entry the result is
`NotFound`. -/
def check_port (store : KnownHosts) (host : String) (port : Nat) (key : List Nat) :
    CheckResult :=
  match store.find? (fun e => e.host == host && e.port == port) with
  | some e => if e.key == key then .Match else .Mismatch
  | none => .NotFound

/-- `known_hosts.add(destination, key, "", key_type)`: append one entry. -/
def known_hosts_add (store : KnownHosts) (host : String) (port : Nat)
    (key : List Nat) (keyType : Nat) : KnownHosts :=
  store ++ [⟨host, port, key, keyType⟩]

/-- Modelled from the spec: one line of the persisted OpenSSH known-hosts file
(hostname/port pattern, key type, key). The byte-level OpenSSH text layout is
owned by the external library; the model keeps the per-line record content. -/
structure StoreLine where
  hostPattern : String
  linePort : Nat
  lineKeyType : Nat
  lineKey : List Nat
  deriving DecidableEq, Repr

/-- Modelled from the spec: `known_hosts.write_file` serialises the store,
one line per entry, in order. -/
def write_file (store : KnownHosts) : List StoreLine :=
  store.map (fun e => ⟨e.host, e.port, e.keyType, e.key⟩)

/-- Modelled from the spec: `known_hosts.read_file` reads the full file back
into the in-memory store, one entry per line, in order. -/
def read_file (lines : List StoreLine) : KnownHosts :=
  lines.map (fun l => ⟨l.hostPattern, l.linePort, l.lineKey, l.lineKeyType⟩)

/-! ## Host verification (`authenticate_host`) -/

/-- The slice of an `ssh2::Session` that `authenticate_host` consumes:
the negotiated host key (with its type) and the host-key hashes used for
the fingerprint display. -/
structure Session where
  hostKey : Option (List Nat × Nat)
  hashSha256 : Option (List Nat)
  hashSha1 : Option (List Nat)
  deriving DecidableEq, Repr

/-- The error outcomes of `authenticate_host`, named per the spec taxonomy. -/
inductive HostAuthError where
  | TrustStoreError
  | ProtocolError
  | FingerprintError
  | UntrustedHostError (destination : String)
  | IdentityMismatchError
  deriving DecidableEq, Repr

/-- The literal affirmative tokens of the `match input.trim()` arm in
`connect.rs` line 74. -/
def affirmativeTokens : List String := ["Y", "y", "YES", "Yes", "yes"]

/-- The fingerprint the code displays: SHA-256 preferred, SHA-1 fallback,
formatted as the hash-type label, a colon, and the base64 digest. The
`SHA128` label for the SHA-1 fallback is the literal text of the source. -/
def fingerprintOf (s : Session) : Option String :=
  match s.hashSha256 with
  | some h => some ("SHA256" ++ ":" ++ String.mk (base64encode h))
  | none =>
    match s.hashSha1 with
    | some h => some ("SHA128" ++ ":" ++ String.mk (base64encode h))
    | none => none

/-- The standard-output lines printed in the not-found branch. -/
def promptLines (destination fingerprint : String) : List String :=
  ["The host key for " ++ destination ++ " was not found in the known hosts file.",
   "Fingerprint: " ++ fingerprint,
   "Would you like to add it (yes/no)? "]

/-- The standard-error warning printed in the mismatch branch. -/
def mismatchWarning : List String :=
  ["####################################################",
   "# WARNING: REMOTE HOST IDENTIFICATION HAS CHANGED! #",
   "####################################################"]

instance {ε α : Type} [DecidableEq ε] [DecidableEq α] : DecidableEq (Except ε α) :=
  fun x y =>
    match x, y with
    | .error a, .error b => decidable_of_iff (a = b) (by simp)
    | .error _, .ok _ => isFalse (by simp)
    | .ok _, .error _ => isFalse (by simp)
    | .ok a, .ok b => decidable_of_iff (a = b) (by simp)

/-- Everything observable about one `authenticate_host` run: its result, the
final in-memory store, whether the store file was rewritten, the lines written
to standard output and standard error, and how many lines were read from
standard input. -/
structure HostAuthOutcome where
  result : Except HostAuthError Session
  store : KnownHosts
  storeWritten : Bool
  stdoutWrites : List String
  stderrWrites : List String
  stdinReads : Nat
  deriving DecidableEq, Repr

/-- `authenticate_host` (`connect.rs` lines 36-93), given the already-loaded
store and the line standard input would deliver. Match returns the session
with no console traffic; NotFound prints the fingerprint prompt, reads one
line and trims it against the affirmative tokens, appending and persisting
the entry on acceptance; Mismatch prints the warning to standard error and
fails with no prompt; Failure fails. -/
def authenticate_host (session : Session) (destination : String) (port : Nat)
    (store : KnownHosts) (inputLine : String) : HostAuthOutcome :=
  match session.hostKey with
  | none => ⟨.error .ProtocolError, store, false, [], [], 0⟩
  | some (key, keyType) =>
    match check_port store destination port key with
    | .Match => ⟨.ok session, store, false, [], [], 0⟩
    | .NotFound =>
      match fingerprintOf session with
      | none => ⟨.error .FingerprintError, store, false, [], [], 0⟩
      | some fp =>
        if affirmativeTokens.contains (rustTrim inputLine) then
          ⟨.ok session, known_hosts_add store destination port key keyType, true,
            promptLines destination fp, [], 1⟩
        else
          ⟨.error (.UntrustedHostError destination), store, false,
            promptLines destination fp, [], 1⟩
    | .Mismatch =>
      ⟨.error .IdentityMismatchError, store, false, [], mismatchWarning, 0⟩
    | .Failure => ⟨.error .TrustStoreError, store, false, [], [], 0⟩

/-! ## Connection establishment (`create_session`, TCP phase) -/

/-- Rust `str::parse::<u16>`: an optional leading plus sign, then one or more
ASCII digits, with the value below 2^16; anything else fails. `none` means a
parse error. -/
def parseU16 (s : String) : Option Nat :=
  let digits :=
    match s.data with
    | '+' :: rest => rest
    | cs => cs
  if digits.isEmpty then none
  else if digits.all (fun c => c.isDigit) then
    let n := digits.foldl (fun acc c => acc * 10 + (c.toNat - 48)) 0
    if n < 65536 then some n else none
  else none

/-- One TCP connection attempt, as issued by `create_session`: either the bare
destination string or an explicit (destination, port) pair. -/
inductive ConnectAttempt where
  | bare (destination : String)
  | withPort (destination : String) (port : Nat)
  deriving DecidableEq, Repr

/-- The network environment: what each possible `TcpStream::connect` call
would return, a socket identifier on success or `none` on failure. -/
structure NetEnv where
  connectBare : String → Option Nat
  connectPort : String → Nat → Option Nat

/-- The error outcomes of the TCP phase, named per the spec taxonomy. -/
inductive CreateError where
  | ConfigurationError (msg : String)
  | ConnectionError
  deriving DecidableEq, Repr

/-- The TCP-establishment phase of `create_session` (`connect.rs` lines
14-21), returning the connected socket (or error) together with the list of
connection attempts actually issued, in order. In the no-port branch the
source is `TcpStream::connect(destination).unwrap_or(TcpStream::connect((destination, 22))?)`:
Rust evaluates the receiver first, then the `unwrap_or` argument eagerly, so
the port-22 connect is always attempted, and a failure of that attempt
propagates through `?` even when the bare attempt succeeded. -/
def create_session (env : NetEnv) (destination : String) (port : Option String) :
    Except CreateError Nat × List ConnectAttempt :=
  match port with
  | some p =>
    match parseU16 p with
    | none => (.error (.ConfigurationError "unable to parse port number"), [])
    | some n =>
      match env.connectPort destination n with
      | some s => (.ok s, [.withPort destination n])
      | none => (.error .ConnectionError, [.withPort destination n])
  | none =>
    let r1 := env.connectBare destination
    match env.connectPort destination 22 with
    | none => (.error .ConnectionError, [.bare destination, .withPort destination 22])
    | some s2 =>
      match r1 with
      | some s1 => (.ok s1, [.bare destination, .withPort destination 22])
      | none => (.ok s2, [.bare destination, .withPort destination 22])

/-! ## User authentication (`authenticate_session`) -/

/-- The authentication environment: for each loop iteration, what the
external library answers. `authMethods i` is the comma-split method set
(`none` models an error from `auth_methods`, propagated by `?`);
`agentResult i` is `none` when `userauth_agent` returns an error (propagated
by `?`) and `some b` when it returns Ok with `b` the authenticated
flag of the session afterwards; `promptResult i` is the password the operator types (`none`
models a prompt error, propagated by `?`); `passwordResult i pw` is the
authenticated flag after `userauth_password` with password `pw`, whose error
is discarded by `.ok()`. -/
structure AuthEnv where
  authMethods : Nat → Option (List String)
  agentResult : Nat → Option Bool
  promptResult : Nat → Option String
  passwordResult : Nat → String → Bool

/-- The observable authentication attempts inside the loop. -/
inductive AuthEvent where
  | agentAttempt (i : Nat)
  | passwordAttempt (i : Nat)
  deriving DecidableEq, Repr

/-- The error outcomes of `authenticate_session`, named per the spec
taxonomy; the first three carry errors of the external library propagated
by `?`. -/
inductive AuthError where
  | MethodsError
  | AgentError
  | PromptError
  | AuthenticationFailedError
  deriving DecidableEq, Repr

/-- One iteration body of the authenticator loop (`connect.rs` lines
104-113), after the break check: query the method set, then try the agent
when "publickey" is offered (its error is fatal via `?`), then prompt and
try the password when "password" is offered (its error is swallowed by
`.ok()`). Returns the resulting authenticated flag (or fatal error) and the
attempts made. -/
def authIter (env : AuthEnv) (i : Nat) (auth : Bool) :
    Except AuthError Bool × List AuthEvent :=
  match env.authMethods i with
  | none => (.error .MethodsError, [])
  | some methods =>
    let agentStep : Except AuthError Bool × List AuthEvent :=
      if !auth && methods.contains "publickey" then
        match env.agentResult i with
        | none => (.error .AgentError, [.agentAttempt i])
        | some b => (.ok b, [.agentAttempt i])
      else (.ok auth, [])
    match agentStep with
    | (.error e, evs) => (.error e, evs)
    | (.ok auth2, evs) =>
      if !auth2 && methods.contains "password" then
        match env.promptResult i with
        | none => (.error .PromptError, evs)
        | some pw => (.ok (env.passwordResult i pw), evs ++ [.passwordAttempt i])
      else (.ok auth2, evs)

/-- The `for _ in 0..3` loop of `authenticate_session`: `i` is the current
iteration index, the second argument the remaining iteration budget, `auth`
the authenticated flag of the session. Returns the final flag (or the fatal
error), the attempts made, and the number of loop bodies executed past the
break check. -/
def authLoop (env : AuthEnv) : Nat → Nat → Bool →
    Except AuthError Bool × List AuthEvent × Nat
  | _, 0, auth => (.ok auth, [], 0)
  | i, n + 1, auth =>
    if auth then (.ok auth, [], 0)
    else
      match authIter env i auth with
      | (.error e, evs) => (.error e, evs, 1)
      | (.ok auth2, evs) =>
        let rest := authLoop env (i + 1) n auth2
        (rest.1, evs ++ rest.2.1, rest.2.2 + 1)

/-- `authenticate_session` (`connect.rs` lines 95-153): run the bounded loop
from the initial authenticated flag, then return success when authenticated,
the propagated external error when one aborted the loop, and
`AuthenticationFailedError` when the loop finished unauthenticated. -/
def authenticate_session (env : AuthEnv) (auth0 : Bool) :
    Except AuthError Unit × List AuthEvent × Nat :=
  match authLoop env 0 3 auth0 with
  | (.error e, evs, n) => (.error e, evs, n)
  | (.ok auth, evs, n) =>
    if auth then (.ok (), evs, n)
    else (.error .AuthenticationFailedError, evs, n)

/-! ## Concrete instances used by witnesses and counterexamples -/

/-- A session presenting host key bytes [1, 2] of type 0, whose SHA-256
host-key hash is [1, 2, 3] (base64 digest AQID). -/
def sessionEx : Session := ⟨some ([1, 2], 0), some [1, 2, 3], none⟩

/-- A store holding a key different from the one `sessionEx` presents,
under (example.com, 22). -/
def storeMismatchEx : KnownHosts := [⟨"example.com", 22, [9, 9], 0⟩]

/-- A store holding exactly the key `sessionEx` presents, under
(example.com, 22). -/
def storeMatchEx : KnownHosts := [⟨"example.com", 22, [1, 2], 0⟩]

/-- A network environment where every connect call fails. -/
def envNetNone : NetEnv := ⟨fun _ => none, fun _ _ => none⟩

/-- A network environment where the bare connect succeeds (socket 7) and
every explicit-port connect fails. -/
def envBareOkPortFail : NetEnv := ⟨fun _ => some 7, fun _ _ => none⟩

/-- A network environment where the bare connect succeeds (socket 7) and
every explicit-port connect succeeds (socket 8). -/
def envBothOk : NetEnv := ⟨fun _ => some 7, fun _ _ => some 8⟩

/-- An authentication environment offering publickey and password, whose
agent call fails (returns an error) and whose password authentication would
succeed on any iteration. -/
def envC3 : AuthEnv :=
  ⟨fun _ => some ["publickey", "password"], fun _ => none,
   fun _ => some "hunter2", fun _ _ => true⟩

/-- An authentication environment offering no methods at all, so no attempt
ever succeeds and the loop runs its full budget. -/
def envC5 : AuthEnv :=
  ⟨fun _ => some [], fun _ => some false, fun _ => some "", fun _ _ => false⟩

/-- An authentication environment offering only publickey, whose agent call
returns Ok without authenticating. -/
def envC6 : AuthEnv :=
  ⟨fun _ => some ["publickey"], fun _ => some false, fun _ => some "pw", fun _ _ => false⟩

/-! ## Helper lemmas -/

theorem dropWhile_append_all {p : Char → Bool} (l1 l2 : List Char)
    (h : ∀ c ∈ l1, p c = true) :
    (l1 ++ l2).dropWhile p = l2.dropWhile p := by
  induction l1 with
  | nil => rfl
  | cons a l ih =>
    rw [List.cons_append, List.dropWhile_cons_of_pos (h a (List.mem_cons_self a l))]
    exact ih (fun c hc => h c (List.mem_cons_of_mem a hc))

theorem trimChars_single (wa wb : List Char) (c : Char)
    (hwa : ∀ x ∈ wa, rustIsWhitespace x = true)
    (hwb : ∀ x ∈ wb, rustIsWhitespace x = true)
    (hc : rustIsWhitespace c = false) :
    trimChars (wa ++ [c] ++ wb) = [c] := by
  unfold trimChars
  rw [List.append_assoc, dropWhile_append_all _ _ hwa, List.singleton_append,
    List.dropWhile_cons_of_neg (by simp [hc]), List.reverse_cons,
    dropWhile_append_all _ _ (fun x hx => hwb x (List.mem_reverse.mp hx)),
    List.dropWhile_cons_of_neg (by simp [hc])]
  rfl

theorem trimChars_sandwich (wa wb l : List Char) (c d : Char)
    (hwa : ∀ x ∈ wa, rustIsWhitespace x = true)
    (hwb : ∀ x ∈ wb, rustIsWhitespace x = true)
    (hc : rustIsWhitespace c = false)
    (hd : rustIsWhitespace d = false) :
    trimChars (wa ++ (c :: (l ++ [d])) ++ wb) = c :: (l ++ [d]) := by
  unfold trimChars
  rw [List.append_assoc, dropWhile_append_all _ _ hwa, List.cons_append,
    List.dropWhile_cons_of_neg (by simp [hc])]
  have h1 : (c :: ((l ++ [d]) ++ wb)).reverse
      = wb.reverse ++ (d :: (l.reverse ++ [c])) := by
    simp [List.reverse_cons, List.reverse_append]
  rw [h1, dropWhile_append_all _ _ (fun x hx => hwb x (List.mem_reverse.mp hx)),
    List.dropWhile_cons_of_neg (by simp [hd])]
  simp [List.reverse_cons, List.reverse_append]

theorem rustTrim_token (wa wb : List Char) (t : String)
    (hwa : ∀ x ∈ wa, rustIsWhitespace x = true)
    (hwb : ∀ x ∈ wb, rustIsWhitespace x = true)
    (ht : t ∈ affirmativeTokens) :
    rustTrim (String.mk (wa ++ t.data ++ wb)) = t := by
  simp only [affirmativeTokens, List.mem_cons, List.not_mem_nil, or_false] at ht
  unfold rustTrim
  rcases ht with rfl | rfl | rfl | rfl | rfl
  · rw [show "Y".data = ['Y'] from rfl, trimChars_single wa wb 'Y' hwa hwb (by decide)]
  · rw [show "y".data = ['y'] from rfl, trimChars_single wa wb 'y' hwa hwb (by decide)]
  · rw [show "YES".data = 'Y' :: (['E'] ++ ['S']) from rfl,
      trimChars_sandwich wa wb ['E'] 'Y' 'S' hwa hwb (by decide) (by decide)]
    rfl
  · rw [show "Yes".data = 'Y' :: (['e'] ++ ['s']) from rfl,
      trimChars_sandwich wa wb ['e'] 'Y' 's' hwa hwb (by decide) (by decide)]
    rfl
  · rw [show "yes".data = 'y' :: (['e'] ++ ['s']) from rfl,
      trimChars_sandwich wa wb ['e'] 'y' 's' hwa hwb (by decide) (by decide)]
    rfl

theorem authenticate_host_accept (session : Session) (destination : String)
    (port : Nat) (store : KnownHosts) (input : String) (key : List Nat)
    (keyType : Nat) (fp : String)
    (hkey : session.hostKey = some (key, keyType))
    (hnf : store.find? (fun e => e.host == destination && e.port == port) = none)
    (hfp : fingerprintOf session = some fp)
    (hyes : affirmativeTokens.contains (rustTrim input) = true) :
    authenticate_host session destination port store input =
      ⟨.ok session, store ++ [⟨destination, port, key, keyType⟩], true,
        promptLines destination fp, [], 1⟩ := by
  simp [authenticate_host, check_port, known_hosts_add, hkey, hnf, hfp, hyes]
  exact List.mem_of_elem_eq_true hyes

theorem authenticate_host_reject (session : Session) (destination : String)
    (port : Nat) (store : KnownHosts) (input : String) (key : List Nat)
    (keyType : Nat) (fp : String)
    (hkey : session.hostKey = some (key, keyType))
    (hnf : store.find? (fun e => e.host == destination && e.port == port) = none)
    (hfp : fingerprintOf session = some fp)
    (hno : affirmativeTokens.contains (rustTrim input) = false) :
    authenticate_host session destination port store input =
      ⟨.error (.UntrustedHostError destination), store, false,
        promptLines destination fp, [], 1⟩ := by
  have hno2 : rustTrim input ∉ affirmativeTokens := fun h => by
    simp at hno
    exact hno h
  simp [authenticate_host, check_port, hkey, hnf, hfp, hno2]

theorem read_file_write_file (store : KnownHosts) :
    read_file (write_file store) = store := by
  induction store with
  | nil => rfl
  | cons e l ih =>
    simp only [write_file, read_file, List.map_cons] at ih ⊢
    rw [ih]

theorem authIter_password_mem (env : AuthEnv) (i j : Nat) (auth : Bool)
    (h : AuthEvent.passwordAttempt j ∈ (authIter env i auth).2) :
    j = i ∧ ∃ ms, env.authMethods i = some ms ∧ ms.contains "password" = true := by
  unfold authIter at h
  rcases hms : env.authMethods i with _ | ms
  · simp only [hms] at h
    simp at h
  · simp only [hms] at h
    by_cases hpk : (!auth && ms.contains "publickey") = true
    · simp only [if_pos hpk] at h
      rcases hag : env.agentResult i with _ | b
      · simp only [hag] at h
        simp at h
      · simp only [hag] at h
        by_cases hpw : (!b && ms.contains "password") = true
        · simp only [if_pos hpw] at h
          rcases hpr : env.promptResult i with _ | pw
          · simp only [hpr] at h
            simp at h
          · simp only [hpr] at h
            simp at h
            exact ⟨h, ms, rfl, (Bool.and_eq_true _ _ |>.mp hpw).2⟩
        · simp only [if_neg hpw] at h
          simp at h
    · simp only [if_neg hpk] at h
      by_cases hpw : (!auth && ms.contains "password") = true
      · simp only [if_pos hpw] at h
        rcases hpr : env.promptResult i with _ | pw
        · simp only [hpr] at h
          simp at h
        · simp only [hpr] at h
          simp at h
          exact ⟨h, ms, rfl, (Bool.and_eq_true _ _ |>.mp hpw).2⟩
      · simp only [if_neg hpw] at h
        simp at h

theorem authLoop_password_mem (env : AuthEnv) (n : Nat) :
    ∀ (i0 j : Nat) (auth : Bool),
      AuthEvent.passwordAttempt j ∈ (authLoop env i0 n auth).2.1 →
      ∃ ms, env.authMethods j = some ms ∧ ms.contains "password" = true := by
  induction n with
  | zero =>
    intro i0 j auth h
    simp [authLoop] at h
  | succ n ih =>
    intro i0 j auth h
    unfold authLoop at h
    by_cases ha : auth
    · rw [if_pos ha] at h
      simp at h
    · rw [if_neg ha] at h
      rcases hit : authIter env i0 auth with ⟨r, evs⟩
      rw [hit] at h
      cases r with
      | error e =>
        have hmem : AuthEvent.passwordAttempt j ∈ (authIter env i0 auth).2 := by
          rw [hit]; exact h
        rcases authIter_password_mem env i0 j auth hmem with ⟨rfl, hms⟩
        exact hms
      | ok auth2 =>
        have h2 : AuthEvent.passwordAttempt j ∈
            evs ++ (authLoop env (i0 + 1) n auth2).2.1 := h
        rcases List.mem_append.mp h2 with h3 | h3
        · have hmem : AuthEvent.passwordAttempt j ∈ (authIter env i0 auth).2 := by
            rw [hit]; exact h3
          rcases authIter_password_mem env i0 j auth hmem with ⟨rfl, hms⟩
          exact hms
        · exact ih (i0 + 1) j auth2 h3

theorem authLoop_iterations_le (env : AuthEnv) (n : Nat) :
    ∀ (i0 : Nat) (auth : Bool), (authLoop env i0 n auth).2.2 ≤ n := by
  induction n with
  | zero => intro i0 auth; simp [authLoop]
  | succ n ih =>
    intro i0 auth
    unfold authLoop
    by_cases ha : auth
    · rw [if_pos ha]
      exact Nat.zero_le _
    · rw [if_neg ha]
      rcases hit : authIter env i0 auth with ⟨r, evs⟩
      cases r with
      | error e =>
        show 1 ≤ n + 1
        omega
      | ok auth2 =>
        show (authLoop env (i0 + 1) n auth2).2.2 + 1 ≤ n + 1
        exact Nat.succ_le_succ (ih (i0 + 1) auth2)

theorem authLoop_step_error (env : AuthEnv) (i n : Nat) (e : AuthError)
    (evs : List AuthEvent) (h : authIter env i false = (.error e, evs)) :
    authLoop env i (n + 1) false = (.error e, evs, 1) := by
  unfold authLoop
  rw [if_neg (by simp)]
  rw [h]

/-! ## Claim theorems -/

/-- C1: for every session whose presented host key is found in the
known-hosts store under a matching (host, port) but with different key
bytes, the verifier prints the prominent warning to standard error and
returns `IdentityMismatchError`, reading nothing from standard input,
printing nothing to standard output, and leaving the store unchanged and
unwritten, regardless of the interactive input line. -/
theorem claim_c1_mismatch_fails_closed (session : Session) (destination : String)
    (port : Nat) (store : KnownHosts) (inputLine : String) (key : List Nat)
    (keyType : Nat) (entry : KHEntry)
    (hkey : session.hostKey = some (key, keyType))
    (hfound : store.find? (fun e => e.host == destination && e.port == port) = some entry)
    (hdiff : entry.key ≠ key) :
    authenticate_host session destination port store inputLine =
      ⟨.error .IdentityMismatchError, store, false, [], mismatchWarning, 0⟩ := by
  have hbeq : (entry.key == key) = false := by simp [hdiff]
  simp [authenticate_host, check_port, hkey, hfound, hbeq]

/-- Witness for C1: the mismatch outcome at a concrete session and store,
with the interactive input even set to an affirmative token. -/
theorem claim_c1_witness :
    authenticate_host sessionEx "example.com" 22 storeMismatchEx "yes" =
      ⟨.error .IdentityMismatchError, storeMismatchEx, false, [], mismatchWarning, 0⟩ :=
  claim_c1_mismatch_fails_closed sessionEx "example.com" 22 storeMismatchEx "yes"
    [1, 2] 0 ⟨"example.com", 22, [9, 9], 0⟩ rfl (by decide) (by decide)

/-- Counterexample to C2 as stated: the claim lists the affirmative tokens
as exactly yes, y, YES, Yes, so the response Y should leave the store
unchanged and yield `UntrustedHostError`; but the source (line 74) also
accepts the bare token Y, appending the entry and persisting the store. -/
theorem claim_c2_counterexample :
    rustTrim "Y" ∉ (["yes", "y", "YES", "Yes"] : List String) ∧
    authenticate_host sessionEx "example.com" 22 [] "Y" =
      ⟨.ok sessionEx, [⟨"example.com", 22, [1, 2], 0⟩], true,
        promptLines "example.com" "SHA256:AQID", [], 1⟩ := by
  constructor
  · decide
  · decide

/-- C2 (amended): for every host key not present in the store, the verifier
appends an entry and persists the store if and only if the trimmed
interactive response is exactly one of the affirmative tokens Y, y, YES,
Yes, yes; every other response leaves the store unchanged and yields
`UntrustedHostError`. -/
theorem claim_c2_trust_decision (session : Session) (destination : String)
    (port : Nat) (store : KnownHosts) (input : String) (key : List Nat)
    (keyType : Nat) (fp : String)
    (hkey : session.hostKey = some (key, keyType))
    (hnf : store.find? (fun e => e.host == destination && e.port == port) = none)
    (hfp : fingerprintOf session = some fp) :
    (affirmativeTokens.contains (rustTrim input) = true →
      authenticate_host session destination port store input =
        ⟨.ok session, store ++ [⟨destination, port, key, keyType⟩], true,
          promptLines destination fp, [], 1⟩) ∧
    (affirmativeTokens.contains (rustTrim input) = false →
      authenticate_host session destination port store input =
        ⟨.error (.UntrustedHostError destination), store, false,
          promptLines destination fp, [], 1⟩) :=
  ⟨fun hyes => authenticate_host_accept session destination port store input key keyType fp
      hkey hnf hfp hyes,
   fun hno => authenticate_host_reject session destination port store input key keyType fp
      hkey hnf hfp hno⟩

/-- Witness for C2: both branches of the amended trust decision at a
concrete session and store. -/
theorem claim_c2_witness :
    authenticate_host sessionEx "example.com" 22 [] " yes\n" =
      ⟨.ok sessionEx, [⟨"example.com", 22, [1, 2], 0⟩], true,
        promptLines "example.com" "SHA256:AQID", [], 1⟩ ∧
    authenticate_host sessionEx "example.com" 22 [] "no\n" =
      ⟨.error (.UntrustedHostError "example.com"), [], false,
        promptLines "example.com" "SHA256:AQID", [], 1⟩ :=
  ⟨(claim_c2_trust_decision sessionEx "example.com" 22 [] " yes\n" [1, 2] 0 "SHA256:AQID"
      rfl rfl rfl).1 (by decide),
   (claim_c2_trust_decision sessionEx "example.com" 22 [] "no\n" [1, 2] 0 "SHA256:AQID"
      rfl rfl rfl).2 (by decide)⟩

/-- Counterexample to C3 as stated: in an iteration offering both publickey
and password, with a password attempt that would succeed, a failing
`userauth_agent` call aborts the whole authentication attempt through the
`?` operator on line 107: the run returns the propagated agent error after
a single iteration, with the agent attempt as its only event, so the loop
neither proceeds to the password method nor to another iteration. -/
theorem claim_c3_counterexample :
    authenticate_session envC3 false =
      (.error .AgentError, [.agentAttempt 0], 1) ∧
    envC3.passwordResult 0 "hunter2" = true := by
  constructor <;> rfl

/-- C3 (amended): in every iteration of the authenticator loop that the
loop reaches unauthenticated with publickey offered, a failure of
agent-based public-key authentication is fatal: the loop stops at once with
the propagated error, no password attempt happens in that iteration, and
when the failure occurs in the first iteration the whole of
`authenticate_session` returns that error. -/
theorem claim_c3_agent_failure_fatal (env : AuthEnv) (i n : Nat) (ms : List String)
    (hms : env.authMethods i = some ms)
    (hpk : ms.contains "publickey" = true)
    (hagent : env.agentResult i = none) :
    authLoop env i (n + 1) false = (.error .AgentError, [.agentAttempt i], 1) ∧
    (i = 0 → authenticate_session env false = (.error .AgentError, [.agentAttempt 0], 1)) := by
  have hiter : authIter env i false = (.error .AgentError, [.agentAttempt i]) := by
    unfold authIter
    rw [hms]
    simp [hagent, List.mem_of_elem_eq_true hpk]
  constructor
  · exact authLoop_step_error env i n .AgentError [.agentAttempt i] hiter
  · rintro rfl
    have h3 : authLoop env 0 3 false = (.error .AgentError, [.agentAttempt 0], 1) :=
      authLoop_step_error env 0 2 .AgentError [.agentAttempt 0] hiter
    unfold authenticate_session
    rw [h3]

/-- Witness for C3: the amended behaviour at the concrete environment
`envC3`. -/
theorem claim_c3_witness :
    envC3.authMethods 0 = some ["publickey", "password"] ∧
    (["publickey", "password"] : List String).contains "publickey" = true ∧
    envC3.agentResult 0 = none ∧
    authLoop envC3 0 3 false = (.error .AgentError, [.agentAttempt 0], 1) ∧
    authenticate_session envC3 false = (.error .AgentError, [.agentAttempt 0], 1) :=
  ⟨rfl, by decide, rfl,
   (claim_c3_agent_failure_fatal envC3 0 2 ["publickey", "password"] rfl (by decide) rfl).1,
   (claim_c3_agent_failure_fatal envC3 0 2 ["publickey", "password"] rfl (by decide) rfl).2 rfl⟩

/-- C4 (code bug, evaluated at the failing inputs): with no port supplied,
the source evaluates the `unwrap_or` argument eagerly, so the port-22
fallback connect is always attempted. First conjunct: when the bare
connect succeeds and the port-22 connect fails, the whole call fails with
the connection error even though the primary connection succeeded, and
both attempts were issued. Second conjunct: when both connects succeed,
both attempts (two live sockets) were issued even though the bare result
is returned. The claim (fallback attempted only if the bare attempt fails,
its result final only in that case, at most one socket) describes the
clearly intended `unwrap_or_else` behaviour, not the code. -/
theorem claim_c4_eager_fallback :
    create_session envBareOkPortFail "example.com:2222" none =
      (.error .ConnectionError,
        [.bare "example.com:2222", .withPort "example.com:2222" 22]) ∧
    create_session envBothOk "example.com" none =
      (.ok 7, [.bare "example.com", .withPort "example.com" 22]) := by
  constructor <;> rfl

/-- C5: the authenticator loop executes at most 3 iterations whatever the
environment does, and when the loop completes with the session still
unauthenticated the result is `AuthenticationFailedError`. -/
theorem claim_c5_loop_bound (env : AuthEnv) (auth0 : Bool) :
    (authenticate_session env auth0).2.2 ≤ 3 ∧
    (∀ evs n, authLoop env 0 3 auth0 = (.ok false, evs, n) →
      (authenticate_session env auth0).1 = .error .AuthenticationFailedError) := by
  constructor
  · have hle := authLoop_iterations_le env 3 0 auth0
    rcases hl : authLoop env 0 3 auth0 with ⟨r, evs, n⟩
    rw [hl] at hle
    unfold authenticate_session
    rw [hl]
    cases r with
    | error e => exact hle
    | ok a => cases a <;> simp <;> exact hle
  · intro evs n hl
    unfold authenticate_session
    rw [hl]
    simp

/-- Witness for C5: at the concrete environment `envC5` (no methods ever
offered) the loop runs its full budget and authentication fails. -/
theorem claim_c5_witness :
    (authenticate_session envC5 false).2.2 ≤ 3 ∧
    (authenticate_session envC5 false).1 = .error .AuthenticationFailedError :=
  ⟨(claim_c5_loop_bound envC5 false).1,
   (claim_c5_loop_bound envC5 false).2 [] 3 (by decide)⟩

/-- C6: the authenticator never attempts password authentication in an
iteration whose offered method set does not contain "password", whatever
the agent does in that iteration. -/
theorem claim_c6_no_password_without_offer (env : AuthEnv) (auth0 : Bool) (i : Nat)
    (ms : List String) (hms : env.authMethods i = some ms)
    (hnp : ms.contains "password" = false) :
    AuthEvent.passwordAttempt i ∉ (authenticate_session env auth0).2.1 := by
  intro h
  have hloop : AuthEvent.passwordAttempt i ∈ (authLoop env 0 3 auth0).2.1 := by
    unfold authenticate_session at h
    rcases hl : authLoop env 0 3 auth0 with ⟨r, evs, n⟩
    rw [hl] at h
    cases r with
    | error e => exact h
    | ok a =>
      show AuthEvent.passwordAttempt i ∈ evs
      cases a
      · exact h
      · exact h
  rcases authLoop_password_mem env 3 0 i auth0 hloop with ⟨ms2, hms2, hp2⟩
  rw [hms] at hms2
  cases hms2
  rw [hp2] at hnp
  cases hnp

/-- Witness for C6: at the concrete environment `envC6`, which offers only
publickey and whose agent call never authenticates, no password attempt
appears in the events. -/
theorem claim_c6_witness :
    envC6.authMethods 0 = some ["publickey"] ∧
    (["publickey"] : List String).contains "password" = false ∧
    AuthEvent.passwordAttempt 0 ∉ (authenticate_session envC6 false).2.1 :=
  ⟨rfl, by decide,
   claim_c6_no_password_without_offer envC6 false 0 ["publickey"] rfl (by decide)⟩

/-- C7: appending a newly trusted entry for (host, port, key) to a store in
which that (host, port) was not found, persisting the store and reloading
it, yields a store in which a check of the same (host, port, key) resolves
to `Match`. -/
theorem claim_c7_roundtrip (store : KnownHosts) (host : String) (port : Nat)
    (key : List Nat) (keyType : Nat)
    (hnf : check_port store host port key = .NotFound) :
    check_port (read_file (write_file (known_hosts_add store host port key keyType)))
      host port key = .Match := by
  have hfind : store.find? (fun e => e.host == host && e.port == port) = none := by
    rcases hcase : store.find? (fun e => e.host == host && e.port == port) with _ | e
    · exact hcase
    · exfalso
      unfold check_port at hnf
      rw [hcase] at hnf
      by_cases hk : (e.key == key) = true
      · simp [hk] at hnf
      · simp [hk] at hnf
  rw [read_file_write_file]
  unfold known_hosts_add check_port
  rw [List.find?_append, hfind, Option.none_or]
  simp [List.find?_cons]

/-- Witness for C7: the round trip at a concrete empty store. -/
theorem claim_c7_witness :
    check_port [] "example.com" 22 [1, 2] = .NotFound ∧
    check_port (read_file (write_file (known_hosts_add [] "example.com" 22 [1, 2] 0)))
      "example.com" 22 [1, 2] = .Match :=
  ⟨rfl, claim_c7_roundtrip [] "example.com" 22 [1, 2] 0 rfl⟩

/-- C8: for every session whose host key exactly matches a store entry for
(host, port), verification succeeds returning the same session, with no
store mutation, no store write, no standard output or error lines, and no
read from standard input. -/
theorem claim_c8_match_frame (session : Session) (destination : String)
    (port : Nat) (store : KnownHosts) (inputLine : String) (key : List Nat)
    (keyType : Nat) (entry : KHEntry)
    (hkey : session.hostKey = some (key, keyType))
    (hfound : store.find? (fun e => e.host == destination && e.port == port) = some entry)
    (heq : entry.key = key) :
    authenticate_host session destination port store inputLine =
      ⟨.ok session, store, false, [], [], 0⟩ := by
  have hbeq : (entry.key == key) = true := by simp [heq]
  simp [authenticate_host, check_port, hkey, hfound, hbeq]

/-- Witness for C8: the match outcome at a concrete session and store. -/
theorem claim_c8_witness :
    authenticate_host sessionEx "example.com" 22 storeMatchEx "whatever" =
      ⟨.ok sessionEx, storeMatchEx, false, [], [], 0⟩ :=
  claim_c8_match_frame sessionEx "example.com" 22 storeMatchEx "whatever"
    [1, 2] 0 ⟨"example.com", 22, [1, 2], 0⟩ rfl (by decide) (by decide)

/-- C9: for every supplied port string that does not parse as an unsigned
16-bit integer, `create_session` fails with the configuration error
"unable to parse port number" and issues no connection attempt at all. -/
theorem claim_c9_bad_port_no_side_effects (env : NetEnv) (destination p : String)
    (hp : parseU16 p = none) :
    create_session env destination (some p) =
      (.error (.ConfigurationError "unable to parse port number"), []) := by
  simp [create_session, hp]

/-- Witness for C9: the out-of-range port string 70000. -/
theorem claim_c9_witness :
    parseU16 "70000" = none ∧
    create_session envNetNone "example.com" (some "70000") =
      (.error (.ConfigurationError "unable to parse port number"), []) :=
  ⟨rfl, claim_c9_bad_port_no_side_effects envNetNone "example.com" "70000" rfl⟩

/-- C10: in the not-found trust decision the interactive response is
compared against the affirmative tokens only after stripping leading and
trailing whitespace, so a response that is an affirmative token surrounded
by whitespace (such as the trailing newline from the console) is accepted:
the entry is appended and the store persisted. -/
theorem claim_c10_trimmed_acceptance (session : Session) (destination : String)
    (port : Nat) (store : KnownHosts) (key : List Nat) (keyType : Nat) (fp : String)
    (wa wb : List Char) (t : String)
    (hkey : session.hostKey = some (key, keyType))
    (hnf : store.find? (fun e => e.host == destination && e.port == port) = none)
    (hfp : fingerprintOf session = some fp)
    (hwa : ∀ x ∈ wa, rustIsWhitespace x = true)
    (hwb : ∀ x ∈ wb, rustIsWhitespace x = true)
    (ht : t ∈ affirmativeTokens) :
    authenticate_host session destination port store (String.mk (wa ++ t.data ++ wb)) =
      ⟨.ok session, store ++ [⟨destination, port, key, keyType⟩], true,
        promptLines destination fp, [], 1⟩ := by
  apply authenticate_host_accept session destination port store _ key keyType fp hkey hnf hfp
  rw [rustTrim_token wa wb t hwa hwb ht]
  exact List.elem_eq_true_of_mem ht

/-- Witness for C10: the token yes surrounded by a space and a newline. -/
theorem claim_c10_witness :
    authenticate_host sessionEx "example.com" 22 [] (String.mk ([' '] ++ "yes".data ++ ['\n'])) =
      ⟨.ok sessionEx, [⟨"example.com", 22, [1, 2], 0⟩], true,
        promptLines "example.com" "SHA256:AQID", [], 1⟩ :=
  claim_c10_trimmed_acceptance sessionEx "example.com" 22 [] [1, 2] 0 "SHA256:AQID"
    [' '] ['\n'] "yes" rfl rfl rfl (by decide) (by decide) (by decide)
